import Mathlib

/-!
Verification of the sivacor CLI client's data-reshaping logic.

Shallow embedding of the pure reshaping/resolution functions of
`src/sivacor/lib.py`, `src/sivacor/submission.py` and `src/sivacor/job.py`.
Remote I/O (the Girder client) is abstracted as explicit inputs: the lists
of records a REST call would return are passed as arguments, and the
console/abort effects become explicit result constructors.  Python floats
in `convert_size` are modelled by exact arithmetic: `math.floor(math.log(n,
base))` as an exact floor logarithm and `round(_, 2)` as round-half-to-even
on hundredths.
-/

namespace Sivacor

/-- A user record as returned by `GET /user?text=`. -/
structure User where
  firstName : String
  lastName : String
  login : String
  email : String
deriving DecidableEq, Repr

/-- Result of `_search_user` (lib.py): `typer.Abort` on no user, `typer.Abort`
after listing the candidates on an ambiguous search, or the resolved user. -/
inductive SearchResult where
  | notFound : SearchResult
  | ambiguous (candidates : List String) : SearchResult
  | found (u : User) : SearchResult
deriving DecidableEq, Repr

/-- The candidate line `_search_user` prints for each user of an ambiguous
match: ` - "first last" <email> (login)`. -/
def display_line (u : User) : String :=
  let fn := u.firstName
  let ln := u.lastName
  let em := u.email
  let lg := u.login
  s!" - \"{fn} {ln}\" <{em}> ({lg})"

/-- `_search_user` (lib.py lines 22-45): no result aborts; more than one
result returns the first whose `login` equals the query, aborting after
listing every candidate when none does; a single result is returned. -/
def _search_user (user : String) (users : List User) : SearchResult :=
  if users.isEmpty then
    .notFound
  else if 1 < users.length then
    match users.find? (fun u => u.login == user) with
    | none => .ambiguous (users.map display_line)
    | some u => .found u
  else
    match users with
    | [] => .notFound
    | u :: _ => .found u

/-- Discriminator: is the search result an `ambiguous` abort? -/
def SearchResult.isAmbiguous : SearchResult → Bool
  | .ambiguous _ => true
  | _ => false

/-- `status_code_to_str` (job.py lines 141-150): the status dict lookup with
default `"Unknown"`. -/
def status_code_to_str (code : Int) : String :=
  if code = 0 then "Inactive"
  else if code = 1 then "Queued"
  else if code = 2 then "Running"
  else if code = 3 then "Completed"
  else if code = 4 then "Failed"
  else if code = 5 then "Canceled"
  else "Unknown"

/-- `duration` (submission.py lines 25-40).  Timestamps are second-resolution
epoch values; `timedelta.days` is the floored day count (`Int.fdiv`) and
`timedelta.seconds` the non-negative remainder in `[0, 86400)` (`Int.emod`,
which `%` denotes). -/
def duration (start stop : Int) : String :=
  let delta := stop - start
  let days : Int := delta.fdiv 86400
  let seconds : Nat := (delta % 86400).toNat
  let hours := seconds / 3600
  let minutes := (seconds % 3600) / 60
  let secs := seconds % 60
  let parts : List String :=
    (if 0 < days then [s!"{days}d"] else []) ++
    (if 0 < hours then [s!"{hours}h"] else []) ++
    (if 0 < minutes then [s!"{minutes}m"] else [])
  let parts := if 0 < secs ∨ parts = [] then parts ++ [s!"{secs}s"] else parts
  String.intercalate " " parts

/-- Exact floor logarithm, fuel-driven so the kernel can evaluate it: with
fuel ≥ n it computes `⌊log_base n⌋`, the value `int(math.floor(math.log(n,
base)))` yields in exact arithmetic.  The program computes this in IEEE-754
doubles, whose result can differ from the exact value in a platform-
dependent window around powers of the base (the int→double conversion and
the library `log` each round); theorems in this development use this
exact model only at inputs where the double computation verifiably agrees. -/
def logFloorAux : Nat → Nat → Nat → Nat
  | 0, _, _ => 0
  | fuel + 1, base, n => if n < base then 0 else logFloorAux fuel base (n / base) + 1

/-- `⌊log_base n⌋` for `2 ≤ base`, `1 ≤ n` (exact; see `logFloorAux` on the
float caveat). -/
def logFloor (base n : Nat) : Nat :=
  logFloorAux n base n

/-- `n / d` in hundredths, rounded half to even: the exact-arithmetic value
of Python's `round(x, 2)` scaled by 100, where `x = n / (100 * d)`. -/
def roundHalfEven (n d : Nat) : Nat :=
  let q := n / d
  let r := n % d
  if 2 * r < d then q
  else if d < 2 * r then q + 1
  else if q % 2 = 0 then q else q + 1

/-- Python's `str` of the float `h / 100` (`h` the rounded hundredths):
always at least one fractional digit, trailing zero dropped from `.X0`. -/
def floatStr (h : Nat) : String :=
  let ip := h / 100
  let frac := h % 100
  if frac = 0 then s!"{ip}.0"
  else if frac % 10 = 0 then
    let d1 := frac / 10
    s!"{ip}.{d1}"
  else if frac < 10 then s!"{ip}.0{frac}"
  else s!"{ip}.{frac}"

/-- `convert_size` (submission.py lines 43-63) with the real-valued steps
made exact: non-positive sizes short-circuit to `"0B"`; otherwise the suffix
index is `⌊log_base size⌋` and the mantissa is `size / base^i` rounded half
to even at 2 decimals.  The tuple indexing `size_name[i]` raises `IndexError`
when `i` is out of bounds, modelled as `none`.  Because the program computes
the index in doubles, this exact model is faithful only away from the
float-rounding window around powers of the base (near `1024^6` the real
code's index reaches 6 a few thousand bytes early); it is relied on here
only at inputs where exact and float arithmetic agree. -/
def convert_size (size_bytes : Int) (binary : Bool := true) : Option String :=
  if size_bytes ≤ 0 then some "0B"
  else
    let suffix := if binary then "i" else ""
    let base := if binary then 1024 else 1000
    let size_name : List String :=
      ["B", s!"K{suffix}B", s!"M{suffix}B", s!"G{suffix}B", s!"T{suffix}B", s!"P{suffix}B"]
    let n := size_bytes.toNat
    let i := logFloor base n
    match size_name.get? i with
    | none => none
    | some name =>
      let s := floatStr (roundHalfEven (100 * n) (base ^ i))
      some s!"{s} {name}"

/-- `FileSpec` (submission.py lines 66-78): one artifact slot of the static
registry, with its CLI name, display name, metadata field name and remote
`type` tag. -/
structure FileSpec where
  cli_name : String
  display_name : String
  field_name : String
  api_type : String
deriving DecidableEq, Repr

namespace SubmissionFiles

/-- `SubmissionFiles.REPLPACK`. -/
def REPLPACK : FileSpec :=
  { cli_name := "ReplPack", display_name := "Replicated Package",
    field_name := "replpack_file_id", api_type := "replicated_package" }

/-- `SubmissionFiles.STDOUT`. -/
def STDOUT : FileSpec :=
  { cli_name := "stdout", display_name := "Run output log",
    field_name := "stdout_file_id", api_type := "stdout" }

/-- `SubmissionFiles.STDERR`. -/
def STDERR : FileSpec :=
  { cli_name := "stderr", display_name := "Run error log",
    field_name := "stderr_file_id", api_type := "stderr" }

/-- `SubmissionFiles.TRO`. -/
def TRO : FileSpec :=
  { cli_name := "tro", display_name := "TRO Declaration",
    field_name := "tro_file_id", api_type := "tro_declaration" }

/-- `SubmissionFiles.TSR`. -/
def TSR : FileSpec :=
  { cli_name := "tsr", display_name := "Trusted Timestamp",
    field_name := "tsr_file_id", api_type := "tro_timestamp" }

/-- `SubmissionFiles.SIG`. -/
def SIG : FileSpec :=
  { cli_name := "sig", display_name := "TRS Signature",
    field_name := "sig_file_id", api_type := "tro_signature" }

/-- `SubmissionFiles.all()`. -/
def all : List FileSpec :=
  [REPLPACK, STDOUT, STDERR, TRO, TSR, SIG]

end SubmissionFiles

/-- One pipeline stage of a submission's metadata. -/
structure Stage where
  image_name : Option String := none
  image_tag : Option String := none
  main_file : Option String := none
deriving DecidableEq, Repr

/-- The structured `meta` dict of a submission folder.  `fields` models the
artifact file-id entries (`replpack_file_id`, ..., keyed by field name); the
other named keys are modelled directly, `none` when the key is absent. -/
structure SubmissionMeta where
  status : Option String := none
  creator_id : Option String := none
  job_id : Option String := none
  stages : List Stage := []
  fields : List (String × String) := []
deriving DecidableEq, Repr

/-- A submission folder record.  `created`/`updated` are the parsed,
timezone-localized timestamps as second-resolution epoch values. -/
structure Folder where
  id : String
  name : String
  created : Int
  updated : Int
  meta : SubmissionMeta
deriving DecidableEq, Repr

/-- `file_id_map` construction (submission.py lines 378-382): for each spec
of the registry, the folder metadata's value at the spec's field name is
entered under the spec's display name when it is truthy (present and
non-empty). -/
def build_file_id_map (meta : SubmissionMeta) : List (String × String) :=
  SubmissionFiles.all.filterMap fun spec =>
    match meta.fields.lookup spec.field_name with
    | none => none
    | some fid => if fid = "" then none else some (spec.display_name, fid)

/-- What the per-slot download loop does for one requested slot: either the
non-fatal `File '<name>' not available for download.` message, or a download
of the resolved file id. -/
inductive DownloadOutcome where
  | notAvailable (display_name : String) : DownloadOutcome
  | downloaded (display_name fileId : String) : DownloadOutcome
deriving DecidableEq, Repr

/-- The download loop of `get_submission` (submission.py lines 432-442):
each requested spec resolves its display name in `file_id_map`; a falsy
result (absent, or empty string) prints the "not available" message and
`continue`s, otherwise the file is fetched and downloaded. -/
def process_downloads (download_specs : List FileSpec)
    (file_id_map : List (String × String)) : List DownloadOutcome :=
  download_specs.map fun spec =>
    match file_id_map.lookup spec.display_name with
    | none => .notAvailable spec.display_name
    | some fid => if fid = "" then .notAvailable spec.display_name
                  else .downloaded spec.display_name fid

/-- The `/folder` query parameters `get_submission` builds
(submission.py lines 304-311). -/
structure FolderParams where
  parentType : String
  parentId : String
  name : Option String
  jobId : Option String
deriving DecidableEq, Repr

/-- Parameter derivation of `get_submission` (submission.py lines 304-311):
a hyphen anywhere in the identifier (Python's `"-" in submission`, i.e. a
`'-'` among the identifier's characters) selects the `name` filter,
otherwise the `jobId` filter. -/
def get_submission_params (parentId submission : String) : FolderParams :=
  if submission.data.contains '-' then
    { parentType := "collection", parentId := parentId,
      name := some submission, jobId := none }
  else
    { parentType := "collection", parentId := parentId,
      name := none, jobId := some submission }

/-- The observable outcome of `get_submission` after the folder query
(submission.py lines 313-372), up to the summary rendering: `folders[0] if
folders else None`; then `job = gc.get(f"/job/{folder['meta']['job_id']}")
if folder else None` — a `KeyError` when the matched folder's metadata has
no `job_id` key; then the not-found exit, the JSON dump, or the summary
with the job's log lines (empty when the job response is falsy). -/
inductive GetOutcome where
  | notFound : GetOutcome
  | keyError : GetOutcome
  | jsonDump (folder : Folder) : GetOutcome
  | summary (folder : Folder) (jobLogs : List String) : GetOutcome
deriving DecidableEq, Repr

/-- The folder/job resolution and render dispatch of `get_submission`
(submission.py lines 313-372).  `jobLogOf` abstracts `gc.get("/job/{id}")`:
`some logs` for a truthy job record with those log lines, `none` for a
falsy response. -/
def get_submission_outcome (folders : List Folder)
    (jobLogOf : String → Option (List String)) (json : Bool) : GetOutcome :=
  match folders.head? with
  | none => .notFound
  | some folder =>
    match folder.meta.job_id with
    | none => .keyError
    | some jid =>
      let job := jobLogOf jid
      if json then .jsonDump folder
      else .summary folder (match job with | some logs => logs | none => [])

/-- A job record as returned by `GET /job/all`.  `created` is the parsed,
localized creation time as a second-resolution epoch value; `createdRaw`
the raw ISO string the table column truncates. -/
structure JobRec where
  id : String
  title : String
  status : Int
  created : Int
  createdRaw : String
deriving DecidableEq, Repr

/-- One rendered row of the `job list` table. -/
structure JobRow where
  id : String
  title : String
  statusStr : String
  createdStr : String
deriving DecidableEq, Repr

/-- The records of `jobs` that survive the client-side `--since` filter in
`list_jobs` (job.py lines 108-111): kept unless `since` is set and the
job's localized creation time is earlier. -/
def jobs_since_filter (jobs : List JobRec) (since : Option Int) : List JobRec :=
  jobs.filter fun j =>
    match since with
    | none => true
    | some s => !(j.created < s)

/-- The table row `list_jobs` adds for a job (job.py lines 112-117). -/
def job_row (j : JobRec) : JobRow :=
  { id := j.id, title := j.title, statusStr := status_code_to_str j.status,
    createdStr := (j.createdRaw.take 16).replace "T" " " }

/-- Output of `job list`: the JSON dump or the table. -/
inductive JobListOutput where
  | jsonOut (jobs : List JobRec) : JobListOutput
  | tableOut (rows : List JobRow) : JobListOutput
deriving DecidableEq, Repr

/-- The client-side tail of `list_jobs` (job.py lines 100-122): the full
materialized `jobs` list feeds the table loop, whose `--since` guard only
skips table rows; the JSON branch prints the full `jobs` list. -/
def list_jobs_output (jobs : List JobRec) (since : Option Int)
    (json : Bool) : JobListOutput :=
  let rows := (jobs_since_filter jobs since).map job_row
  if json then .jsonOut jobs else .tableOut rows

/-- The folders `list_submissions` accumulates (submission.py lines
239-247): a folder is skipped when `--since` is set and its localized
creation time is earlier, or when a user filter is set and the folder's
`creator_id` metadata (default `""`) differs from the resolved user's id. -/
def list_submissions_folders (folders : List Folder) (since : Option Int)
    (userId : Option String) : List Folder :=
  folders.filter fun f =>
    (match since with
     | none => true
     | some s => !(f.created < s)) &&
    (match userId with
     | none => true
     | some uid => (f.meta.creator_id.getD "") == uid)

/-- `status_icon` (submission.py lines 162-169). -/
def status_icon (status : String) : String :=
  let s := status.toLower
  if s = "submitted" then "⏳"
  else if s = "processing" then "🔄"
  else if s = "completed" then "✅"
  else if s = "failed" then "❌"
  else "❓"

/-- The per-stage image summary of `list_submissions` (submission.py lines
248-258): `image_name:image_tag` per stage, comma-joined, `"N/A"` when the
stage list is empty. -/
def image_summary (stages : List Stage) : String :=
  if stages.isEmpty then "N/A"
  else
    String.intercalate "," (stages.map fun stage =>
      let nm := stage.image_name.getD "N/A"
      let tg := stage.image_tag.getD "N/A"
      s!"{nm}:{tg}")

/-- One rendered row of the `submission list` table. -/
structure SubRow where
  name : String
  jobId : String
  image : String
  creator : String
  durationStr : String
  icon : String
deriving DecidableEq, Repr

/-- The table row `list_submissions` adds for an included folder
(submission.py lines 259-270).  `users` is the pre-fetched id → display
map; unknown creators render `"Unknown"`. -/
def sub_row (users : List (String × String)) (f : Folder) : SubRow :=
  { name := f.name,
    jobId := f.meta.job_id.getD "N/A",
    image := image_summary f.meta.stages,
    creator := (users.lookup (f.meta.creator_id.getD "")).getD "Unknown",
    durationStr := duration f.created f.updated,
    icon := status_icon (f.meta.status.getD "unknown") }

/-- Output of `submission list`: the JSON dump or the table. -/
inductive SubListOutput where
  | jsonOut (folders : List Folder) : SubListOutput
  | tableOut (rows : List SubRow) : SubListOutput
deriving DecidableEq, Repr

/-- The client-side tail of `list_submissions` (submission.py lines
239-275): folders passing the since/user filters are both appended to
`folders` and rendered as rows; JSON mode prints the accumulated
(filtered) `folders` list. -/
def list_submissions_output (folders : List Folder) (since : Option Int)
    (userId : Option String) (users : List (String × String))
    (json : Bool) : SubListOutput :=
  let kept := list_submissions_folders folders since userId
  if json then .jsonOut kept else .tableOut (kept.map (sub_row users))

/-- The duration rendering as the specification describes it, for comparison
with `duration`: the non-zero day, hour and minute components of the
(non-negative) delta in that order, the seconds component appended exactly
when it is non-zero or all other components are zero. -/
def duration_spec (start stop : Int) : String :=
  let total := (stop - start).toNat
  let days := total / 86400
  let hours := total % 86400 / 3600
  let minutes := total % 86400 % 3600 / 60
  let secs := total % 86400 % 60
  let parts : List String :=
    (if 0 < days then [s!"{days}d"] else []) ++
    (if 0 < hours then [s!"{hours}h"] else []) ++
    (if 0 < minutes then [s!"{minutes}m"] else [])
  let parts :=
    if secs ≠ 0 ∨ (days = 0 ∧ hours = 0 ∧ minutes = 0) then parts ++ [s!"{secs}s"]
    else parts
  String.intercalate " " parts

/-- The hour/minute/second rendering the claim about negative deltas
describes: components of the wrapped second count, same omission rules as
`duration`, no day component. -/
def hms_render (t : Nat) : String :=
  let hours := t / 3600
  let minutes := t % 3600 / 60
  let secs := t % 60
  let parts : List String :=
    (if 0 < hours then [s!"{hours}h"] else []) ++
    (if 0 < minutes then [s!"{minutes}m"] else [])
  let parts := if 0 < secs ∨ parts = [] then parts ++ [s!"{secs}s"] else parts
  String.intercalate " " parts

/-- Demonstration metadata: a submission whose `tro_file_id` field is
absent (stdout and signature ids present). -/
def demoMeta : SubmissionMeta :=
  { status := some "completed", creator_id := some "u1", job_id := some "j1",
    stages := [],
    fields := [("stdout_file_id", "f-out"), ("sig_file_id", "f-sig")] }

/-- Demonstration user: login `bob`, first of two homonyms. -/
def bobOne : User :=
  { firstName := "Bob", lastName := "One", login := "bob", email := "bob1@example.org" }

/-- Demonstration user: login `bob`, second of two homonyms. -/
def bobTwo : User :=
  { firstName := "Bob", lastName := "Two", login := "bob", email := "bob2@example.org" }

/-- Demonstration user with login `ada`. -/
def userAda : User :=
  { firstName := "Ada", lastName := "L", login := "ada", email := "ada@example.org" }

/-- Demonstration user with login `alan`. -/
def userAlan : User :=
  { firstName := "Alan", lastName := "T", login := "alan", email := "alan@example.org" }

/-- Demonstration job created after the since cutoff used below. -/
def jobLate : JobRec :=
  { id := "j-late", title := "New run", status := 2, created := 200,
    createdRaw := "2024-06-01T00:00:00" }

/-- Demonstration job created before the since cutoff used below. -/
def jobEarly : JobRec :=
  { id := "j-early", title := "Old run", status := 3, created := 50,
    createdRaw := "2024-01-01T00:00:00" }

/-- Demonstration folder whose metadata has no `job_id` key. -/
def folderNoJobId : Folder :=
  { id := "f1", name := "run-1", created := 0, updated := 10,
    meta := { status := some "completed", creator_id := some "u1", job_id := none,
              stages := [], fields := [("stdout_file_id", "fid-1")] } }

/-- `toString` of a cast natural number agrees with `toString` of the
natural number. -/
theorem toString_int_natCast (n : Nat) : toString (n : Int) = toString n := rfl

/-- Claim C1, counterexample: two search results share the query login
`bob`; the lookup has multiple results, the number of exact-login matches
is 2 (not 1), yet `_search_user` returns the first match instead of
failing with an ambiguity abort. -/
theorem c1_counterexample :
    1 < ([bobOne, bobTwo] : List User).length ∧
    (([bobOne, bobTwo] : List User).filter (fun u => u.login == "bob")).length = 2 ∧
    _search_user "bob" [bobOne, bobTwo] = .found bobOne ∧
    (_search_user "bob" [bobOne, bobTwo]).isAmbiguous = false := by
  refine ⟨by decide, rfl, rfl, rfl⟩

/-- Claim C1 (amended): zero results fail with not-found; a single result
is returned; with multiple results the first result whose login exactly
equals the query is returned (in particular the unique such result when
exactly one matches), and when no login matches the lookup fails with an
ambiguity abort after reporting every candidate's name, email and login. -/
theorem c1_user_search (query : String) (users : List User) :
    (_search_user query [] = .notFound) ∧
    (∀ u : User, _search_user query [u] = .found u) ∧
    (∀ u : User, 1 < users.length →
        users.find? (fun v => v.login == query) = some u →
        _search_user query users = .found u) ∧
    (1 < users.length →
        users.find? (fun v => v.login == query) = none →
        _search_user query users = .ambiguous (users.map display_line)) := by
  have hne : 1 < users.length → users.isEmpty = false := by
    cases users with
    | nil => intro h; simp at h
    | cons a l => intro _; rfl
  refine ⟨rfl, fun u => rfl, ?_, ?_⟩
  · intro u hlen hfind
    simp [_search_user, hne hlen, hlen, hfind]
  · intro hlen hfind
    simp [_search_user, hne hlen, hlen, hfind]

/-- Claim C1 witness: on a concrete two-user list with no login equal to
the query, the lookup is the ambiguity abort listing both candidates. -/
theorem c1_user_search_witness :
    _search_user "grace" [userAda, userAlan] =
      .ambiguous [display_line userAda, display_line userAlan] :=
  (c1_user_search "grace" [userAda, userAlan]).2.2.2 (by decide) (by rfl)

/-- Claim C2: a requested slot that does not resolve in the artifact-id map
yields the non-fatal "not available" outcome in place, the slots before and
after it are processed unchanged, and in general the loop produces exactly
one outcome per requested slot — no absent slot aborts the command. -/
theorem c2_download_slot_continues :
    (∀ (pre suf : List FileSpec) (spec : FileSpec) (m : List (String × String)),
        m.lookup spec.display_name = none →
        process_downloads (pre ++ spec :: suf) m =
          process_downloads pre m ++
            .notAvailable spec.display_name :: process_downloads suf m) ∧
    (∀ (specs : List FileSpec) (m : List (String × String)),
        (process_downloads specs m).length = specs.length) := by
  constructor
  · intro pre suf spec m h
    simp [process_downloads, h]
  · intro specs m
    simp [process_downloads]

/-- Claim C2 witness: requesting stdout, TRO and signature against metadata
whose `tro_file_id` field is absent processes all three slots, the TRO slot
as "not available". -/
theorem c2_download_slot_continues_witness :
    process_downloads
        ([SubmissionFiles.STDOUT] ++ SubmissionFiles.TRO :: [SubmissionFiles.SIG])
        (build_file_id_map demoMeta) =
      process_downloads [SubmissionFiles.STDOUT] (build_file_id_map demoMeta) ++
        .notAvailable SubmissionFiles.TRO.display_name ::
          process_downloads [SubmissionFiles.SIG] (build_file_id_map demoMeta) :=
  c2_download_slot_continues.1 [SubmissionFiles.STDOUT] [SubmissionFiles.SIG]
    SubmissionFiles.TRO (build_file_id_map demoMeta) (by rfl)

/-- Claim C3: every non-positive size renders `"0B"`; 1024 renders
`"1.0 KiB"` and 1500000 renders `"1.43 MiB"` (binary prefix selected by the
floor logarithm, mantissa rounded to 2 decimals). -/
theorem c3_convert_size_values :
    (∀ size_bytes : Int, size_bytes ≤ 0 → convert_size size_bytes = some "0B") ∧
    convert_size 1024 = some "1.0 KiB" ∧
    convert_size 1500000 = some "1.43 MiB" := by
  refine ⟨?_, rfl, rfl⟩
  intro z hz
  simp [convert_size, hz]

/-- Claim C3 witness: size −3 renders `"0B"`. -/
theorem c3_convert_size_values_witness : convert_size (-3) = some "0B" :=
  c3_convert_size_values.1 (-3) (by decide)

/-- Claim C5: status codes 0–5 render Inactive, Queued, Running, Completed,
Failed, Canceled; every code outside `{0..5}` renders `"Unknown"`. -/
theorem c5_status_code_map :
    status_code_to_str 0 = "Inactive" ∧ status_code_to_str 1 = "Queued" ∧
    status_code_to_str 2 = "Running" ∧ status_code_to_str 3 = "Completed" ∧
    status_code_to_str 4 = "Failed" ∧ status_code_to_str 5 = "Canceled" ∧
    (∀ code : Int, code < 0 ∨ 5 < code → status_code_to_str code = "Unknown") := by
  refine ⟨rfl, rfl, rfl, rfl, rfl, rfl, ?_⟩
  intro code hc
  unfold status_code_to_str
  rw [if_neg (by omega), if_neg (by omega), if_neg (by omega), if_neg (by omega),
    if_neg (by omega), if_neg (by omega)]

/-- Claim C5 witness: code 7 renders `"Unknown"`. -/
theorem c5_status_code_map_witness : status_code_to_str 7 = "Unknown" :=
  c5_status_code_map.2.2.2.2.2.2 7 (by decide)

/-- Claim C6: the folder query of `submission get` carries the `name`
filter (and no `jobId`) exactly when the identifier contains a hyphen, and
the `jobId` filter (and no `name`) otherwise. -/
theorem c6_submission_lookup_params (parentId submission : String) :
    (submission.data.contains '-' = true →
        get_submission_params parentId submission =
          { parentType := "collection", parentId := parentId,
            name := some submission, jobId := none }) ∧
    (submission.data.contains '-' = false →
        get_submission_params parentId submission =
          { parentType := "collection", parentId := parentId,
            name := none, jobId := some submission }) := by
  constructor <;> intro h <;> (unfold get_submission_params; rw [h]; simp)

/-- Claim C6 witness: `my-run` resolves by name, `abc123` by job id. -/
theorem c6_submission_lookup_params_witness :
    get_submission_params "p" "my-run" =
      { parentType := "collection", parentId := "p",
        name := some "my-run", jobId := none } ∧
    get_submission_params "p" "abc123" =
      { parentType := "collection", parentId := "p",
        name := none, jobId := some "abc123" } :=
  ⟨(c6_submission_lookup_params "p" "my-run").1 (by decide),
   (c6_submission_lookup_params "p" "abc123").2 (by decide)⟩

/-- Claim C7, counterexample: with `--since 100` and JSON mode, `job list`
emits both demonstration jobs even though only the later one passes the
client-side since filter — the JSON branch prints the full materialized
list, not the filtered records. -/
theorem c7_counterexample :
    list_jobs_output [jobLate, jobEarly] (some 100) true =
      .jsonOut [jobLate, jobEarly] ∧
    jobs_since_filter [jobLate, jobEarly] (some 100) = [jobLate] ∧
    ([jobLate, jobEarly] : List JobRec) ≠ [jobLate] := by
  refine ⟨rfl, by decide, by decide⟩

/-- Claim C7 (amended): in JSON mode both listings emit raw record lists
with no table-derived fields; `submission list` emits exactly the folders
that pass its client-side since/user filters, while `job list` emits every
record the server returned, including records the `--since` filter removes
from the table. -/
theorem c7_json_listing :
    (∀ (folders : List Folder) (since : Option Int) (userId : Option String)
        (users : List (String × String)),
        list_submissions_output folders since userId users true =
          .jsonOut (list_submissions_folders folders since userId)) ∧
    (∀ (jobs : List JobRec) (since : Option Int),
        list_jobs_output jobs since true = .jsonOut jobs) := by
  exact ⟨fun _ _ _ _ => rfl, fun _ _ => rfl⟩

/-- Claim C8: `submission get` on a matched folder whose metadata has no
`job_id` key evaluates `folder['meta']['job_id']` before any rendering and
raises a `KeyError` — in summary mode and even in JSON mode — instead of
rendering with the log section omitted. -/
theorem c8_missing_job_id_keyerror :
    get_submission_outcome [folderNoJobId] (fun _ => none) false = .keyError ∧
    get_submission_outcome [folderNoJobId] (fun _ => none) true = .keyError :=
  ⟨rfl, rfl⟩

/-- For a non-negative delta, `duration` renders exactly the description:
non-zero day, hour, minute components in order, the seconds component
appended exactly when it is non-zero or every other component is zero. -/
theorem duration_eq_spec (start stop : Int) (h : start ≤ stop) :
    duration start stop = duration_spec start stop := by
  obtain ⟨total, htot⟩ : ∃ n : Nat, stop - start = (n : Int) :=
    ⟨(stop - start).toNat, (Int.toNat_of_nonneg (by omega)).symm⟩
  have hfd : (stop - start).fdiv 86400 = ((total / 86400 : Nat) : Int) := by
    rw [Int.fdiv_eq_ediv _ (by norm_num)]
    omega
  have hsec : ((stop - start) % 86400).toNat = total % 86400 := by omega
  have htn : (stop - start).toNat = total := by omega
  simp only [duration, duration_spec, hfd, hsec, htn]
  generalize total / 86400 = D
  generalize total % 86400 / 3600 = H
  generalize total % 86400 % 3600 / 60 = M
  generalize total % 86400 % 60 = S
  by_cases hD : D = 0 <;> by_cases hH : H = 0 <;> by_cases hM : M = 0 <;>
    by_cases hS : S = 0 <;>
      simp [hD, hH, hM, hS, toString_int_natCast, Nat.pos_iff_ne_zero,
        Int.natCast_pos]

/-- Claim C4: for every start ≤ end the elapsed-duration string is the
concatenation of the non-zero day, hour, minute components in that order
with the seconds component appended exactly when seconds is non-zero or all
other components are zero; a 45-second delta renders `"45s"` and a delta of
1 day 0 hours 5 minutes 0 seconds renders `"1d 5m"`. -/
theorem c4_duration_format :
    (∀ start stop : Int, start ≤ stop →
        duration start stop = duration_spec start stop) ∧
    duration 0 45 = "45s" ∧
    duration 0 86700 = "1d 5m" :=
  ⟨duration_eq_spec, rfl, rfl⟩

/-- Claim C4 witness: the characterization applied at a concrete
90061-second delta (1d 1h 1m 1s). -/
theorem c4_duration_format_witness : duration 0 90061 = duration_spec 0 90061 :=
  c4_duration_format.1 0 90061 (by decide)

/-- Claim C10: for an end earlier than start by less than one day the
formatter signals nothing: the negative day count is dropped and the
rendering is the hour/minute/second components of the wrapped remainder
`86400 - (start - end)`; one second of negative delta renders
`"23h 59m 59s"`, with no minus sign. -/
theorem c10_negative_duration :
    (∀ start stop : Int, stop < start → start - stop < 86400 →
        duration start stop = hms_render ((86400 : Int) - (start - stop)).toNat) ∧
    duration 1 0 = "23h 59m 59s" ∧
    (duration 1 0).data.contains '-' = false := by
  refine ⟨?_, rfl, by decide⟩
  intro start stop h1 h2
  have hfd : (stop - start).fdiv 86400 = -1 := by
    rw [Int.fdiv_eq_ediv _ (by norm_num)]
    omega
  have hsec : ((stop - start) % 86400).toNat =
      ((86400 : Int) - (start - stop)).toNat := by
    omega
  simp only [duration, hms_render, hfd, hsec]
  norm_num

/-- Claim C10 witness: a one-second negative delta matches the wrapped
hour/minute/second rendering. -/
theorem c10_negative_duration_witness :
    duration 1 0 = hms_render ((86400 : Int) - (1 - 0)).toNat :=
  c10_negative_duration.1 1 0 (by decide) (by decide)

end Sivacor
